import Mathlib

/-!
Shallow embedding of the wavetraffic incident-map front end
(`src/src/App.jsx`, three concatenated draft variants, and
`src/unnamed/part_001`, a fourth variant) together with proofs about
its viewport filter, selection controller and view projection.

JavaScript numbers that can be NaN (the result of `parseFloat`) are
modelled as `Option ℚ`, with `none` playing the role of NaN; every
IEEE comparison against NaN is false, which the model mirrors by
making `none` fail every containment test.  Characters are modelled
at code-point level.
-/

/-- Numeric value of an ASCII digit character, `none` otherwise. -/
def digitVal (c : Char) : Option Nat :=
  if '0' ≤ c ∧ c ≤ '9' then some (c.toNat - 48) else none

/-- Split a character list into its longest digit run and the rest. -/
def takeDigits : List Char → List Nat × List Char
  | [] => ([], [])
  | c :: cs =>
    match digitVal c with
    | some d =>
      let r := takeDigits cs
      (d :: r.1, r.2)
    | none => ([], c :: cs)

/-- Value of a most-significant-first digit list. -/
def digitsToNat (ds : List Nat) : Nat :=
  ds.foldl (fun acc d => acc * 10 + d) 0

/-- Model of the JavaScript builtin `parseFloat`, which the source applies
to the incident `lat`/`long` strings: leading spaces are skipped, an
optional sign is read, then decimal digits with an optional fractional
part; trailing garbage is ignored.  An input with no leading numeric
prefix yields NaN, modelled as `none`. -/
def parseFloat (s : String) : Option ℚ :=
  let cs := s.data.dropWhile (fun c => c = ' ')
  let signed : Bool × List Char :=
    match cs with
    | '-' :: rest => (true, rest)
    | '+' :: rest => (false, rest)
    | _ => (false, cs)
  let intPart := takeDigits signed.2
  let fracPart :=
    match intPart.2 with
    | '.' :: rest => (takeDigits rest).1
    | _ => []
  if intPart.1 = [] ∧ fracPart = [] then none
  else
    let mag : Int := digitsToNat (intPart.1 ++ fracPart)
    some (Rat.divInt (if signed.1 then -mag else mag) ((10 : Int) ^ fracPart.length))

/-- Model of the map collaborator's `google.maps.LatLngBounds`: a
south-west / north-east corner pair. -/
structure LatLngBounds where
  south : ℚ
  west : ℚ
  north : ℚ
  east : ℚ
deriving DecidableEq

/-- Model of the collaborator predicate `bounds.contains({lat, lng})`:
a closed box test on the two coordinates.  A NaN coordinate (`none`)
is never contained, because every IEEE comparison with NaN is false. -/
def LatLngBounds.containsPoint (b : LatLngBounds) (lat lng : Option ℚ) : Bool :=
  match lat, lng with
  | some la, some lo =>
    decide (b.south ≤ la) && decide (la ≤ b.north) &&
      decide (b.west ≤ lo) && decide (lo ≤ b.east)
  | _, _ => false

/-- Incident record as loaded from `data/incidents.json`
(`const incidents = incidentsJSON.incidents`): coordinates arrive as
strings and are parsed at each use site. -/
structure Incident where
  id : String
  alert_type : String
  title : String
  description : String
  lat : String
  long : String
deriving DecidableEq

/-- Marker as created in `handleMapLoad`: its position is
`new GoogleMaps.LatLng(parseFloat(incident.lat), parseFloat(incident.long))`. -/
structure Marker where
  lat : Option ℚ
  lng : Option ℚ
deriving DecidableEq

/-- Marker attached to an incident by `handleMapLoad`
(`incident.marker = marker`), positioned at the parsed coordinates. -/
def markerFor (incident : Incident) : Marker :=
  { lat := parseFloat incident.lat, lng := parseFloat incident.long }

/-- Marker list built by the `incidents.forEach` loop of `handleMapLoad`:
one marker per incident, with no validation or rejection of records
whose coordinate strings fail to parse. -/
def createMarkers (incidents : List Incident) : List Marker :=
  incidents.map markerFor

/-- Point list fed to `bounds.extend` by `handleMapLoad` before
`map.fitBounds(bounds)`: again every incident participates, parsed or
not. -/
def fitBoundsPoints (incidents : List Incident) : List (Option ℚ × Option ℚ) :=
  incidents.map (fun i => (parseFloat i.lat, parseFloat i.long))

/-- Model of the stored `map` object: the state the handlers read from
and write to through the collaborator calls `getBounds`, `getZoom`,
`setZoom` and `panTo`.  `bounds` is `none` while `map.getBounds()`
still returns `undefined`. -/
structure MapState where
  bounds : Option LatLngBounds
  zoom : ℚ
  center : Option ℚ × Option ℚ
deriving DecidableEq

/-- Filter body of `updateList`:
`incidents.filter((incident) => bounds.contains({lat: parseFloat(incident.lat), lng: parseFloat(incident.long)}))`. -/
def incidentContained (bounds : LatLngBounds) (incident : Incident) : Bool :=
  bounds.containsPoint (parseFloat incident.lat) (parseFloat incident.long)

/-- Pure core of the viewport filter. -/
def computeVisible (incidents : List Incident) (bounds : LatLngBounds) : List Incident :=
  incidents.filter (incidentContained bounds)

/-- Guarded `updateList` (part_001 lines 124-137 and App.jsx lines
110-123): `if (!map) return; const bounds = map.getBounds(); if (!bounds) return;`
then the filter.  Returning early leaves the previous `visibleIncidents`
state in place, which the model expresses by returning `prevVisible`. -/
def updateList (map : Option MapState) (incidents prevVisible : List Incident) :
    List Incident :=
  match map with
  | none => prevVisible
  | some m =>
    match m.bounds with
    | none => prevVisible
    | some bounds => computeVisible incidents bounds

/-- Unguarded `updateList` of the other two App.jsx draft variants
(lines 396-408 and 615-629): only `if (!map) return;` guards the body,
so when `map.getBounds()` is `undefined` the call
`bounds.contains(...)` throws a TypeError, modelled as `Except.error`. -/
def updateListNoGuard (map : Option MapState) (incidents prevVisible : List Incident) :
    Except String (List Incident) :=
  match map with
  | none => .ok prevVisible
  | some m =>
    match m.bounds with
    | none => .error "TypeError: bounds is undefined"
    | some bounds => .ok (computeVisible incidents bounds)

/-- React component state of `App` plus the imperative info-window
state of the part_001 variant (`infoWindow.current`), flattened into
one record. -/
structure AppState where
  map : Option MapState
  visibleIncidents : List Incident
  selectedIncident : Option Incident
  isIncidentListVisible : Bool
  infoWindowContent : String
  infoWindowAnchor : Option Marker
deriving DecidableEq

/-- Generic rule of `formatAlertType`:
`alert.charAt(0).toUpperCase() + alert.slice(1)` (ASCII case mapping
suffices for the closed tag set). -/
def jsCapitalizeFirst (s : String) : String :=
  match s.data with
  | [] => ""
  | c :: rest => String.mk (c.toUpper :: rest)

/-- Transcription of `formatAlertType` (identical in all variants):
the irregular tag is special-cased before the generic capitalisation
rule. -/
def formatAlertType (alert : String) : String :=
  if alert = "tow_allocation" then "Tow Allocation"
  else jsCapitalizeFirst alert

/-- Allowed-character test of the `escape` regex: the replacement
applies to every character matching `[^0-9A-Za-z ]`. -/
def escapeAllowed (c : Char) : Bool :=
  (decide ('0' ≤ c) && decide (c ≤ '9')) ||
    (decide ('A' ≤ c) && decide (c ≤ 'Z')) ||
    (decide ('a' ≤ c) && decide (c ≤ 'z')) ||
    (c == ' ')

/-- ASCII digit character for a value below ten. -/
def digitChar (d : Nat) : Char := Char.ofNat (48 + d)

/-- Decimal digit expansion, most significant first, used to model the
JavaScript number-to-string coercion in `"&#" + c.charCodeAt(0) + ";"`.
The fuel argument only serves structural termination; `natDigits`
supplies enough of it for any input. -/
def natDigitsAux : Nat → Nat → List Char
  | 0, _ => []
  | fuel + 1, n =>
    if n < 10 then [digitChar n]
    else natDigitsAux fuel (n / 10) ++ [digitChar (n % 10)]

/-- Decimal digit characters of a natural number. -/
def natDigits (n : Nat) : List Char := natDigitsAux (n + 1) n

/-- Image of one character under the `escape` replacement: characters
outside `[0-9A-Za-z ]` become the numeric character reference
`"&#" + c.charCodeAt(0) + ";"`. -/
def escapeChar (c : Char) : List Char :=
  if escapeAllowed c then [c]
  else '&' :: '#' :: natDigits c.toNat ++ [';']

/-- Transcription of part_001's `escape`:
`s.replace(/[^0-9A-Za-z ]/g, (c) => "&#" + c.charCodeAt(0) + ";")`,
i.e. the concatenation of the per-character images. -/
def escape (s : String) : String :=
  String.mk (s.data.flatMap escapeChar)

/-- HTML string built by part_001's `setInfoWindowContent` and passed
to `infoWindow.current.setContent`. -/
def infoWindowHTML (incident : Incident) : String :=
  "<div class=\"infoWindow\"><h2>" ++ escape (formatAlertType incident.alert_type) ++
    "</h2><h3>" ++ escape incident.title ++
    "</h3><p>" ++ escape incident.description ++ "</p></div>"

/-- State effect of part_001's `setInfoWindowContent(incident)`. -/
def setInfoWindowContent (s : AppState) (incident : Incident) : AppState :=
  { s with infoWindowContent := infoWindowHTML incident }

/-- App.jsx `handleMarkerClick` (all three draft variants, e.g. lines
146-152): `flushSync(() => setSelectedIncident(null))` forces a
synchronous render of the cleared selection, then
`setSelectedIncident(incident)` is rendered at the end of the handler.
The second component collects the selection values exposed to the
renderer, in order. -/
def handleMarkerClick (s : AppState) (incident : Incident) :
    AppState × List (Option Incident) :=
  let s1 := { s with selectedIncident := none }
  let s2 := { s1 with selectedIncident := some incident }
  (s2, [s1.selectedIncident, s2.selectedIncident])

/-- part_001 `handleMarkerClick` (lines 230-239): set the info-window
content, open it on the incident's marker, then
`setSelectedIncident(incident)`.  The single React state update is
rendered once, at the end of the handler; no cleared selection is ever
exposed. -/
def handleMarkerClickP1 (s : AppState) (incident : Incident) :
    AppState × List (Option Incident) :=
  let s1 := setInfoWindowContent s incident
  let s2 := { s1 with infoWindowAnchor := some (markerFor incident) }
  let s3 := { s2 with selectedIncident := some incident }
  (s3, [s3.selectedIncident])

/-- part_001 `handleIncidentListItemClick` (lines 248-261): select the
incident, hide the list drawer, `map.panTo(incident.marker.position)`,
raise the zoom (`if (map.getZoom() < 14) map.setZoom(14)`), then set
and open the info window.  Dereferencing a null `map` would throw,
modelled as `Except.error`. -/
def handleIncidentListItemClick (s : AppState) (incident : Incident) :
    Except String AppState :=
  match s.map with
  | none => .error "TypeError: map is null"
  | some m =>
    let s1 := { s with selectedIncident := some incident }
    let s2 := { s1 with isIncidentListVisible := false }
    let m1 := { m with center := ((markerFor incident).lat, (markerFor incident).lng) }
    let m2 := if m1.zoom < (14 : ℚ) then { m1 with zoom := 14 } else m1
    let s3 := setInfoWindowContent { s2 with map := some m2 } incident
    .ok { s3 with infoWindowAnchor := some (markerFor incident) }

/-- `handleInfoWindowCloseClick` (all variants): deselect the incident. -/
def handleInfoWindowCloseClick (s : AppState) : AppState :=
  { s with selectedIncident := none }

/-- Drawer-toggle button handler (all variants):
`setIsIncidentListVisible(!isIncidentListVisible)`. -/
def handleListToggleClick (s : AppState) : AppState :=
  { s with isIncidentListVisible := !s.isIncidentListVisible }

/-- Pluralisation fragment of the visible-count label:
`{visibleIncidents.length === 1 ? "" : "s"}`. -/
def pluralSuffix (n : Nat) : String :=
  if n = 1 then "" else "s"

/-- Visible-count label rendered by `App`
(`{visibleIncidents.length} incident{... ? "" : "s"} shown.`). -/
def incidentCountLabel (n : Nat) : String :=
  toString n ++ " incident" ++ pluralSuffix n ++ " shown."

/-- Safety predicate on escaped output: every ampersand is immediately
followed by a hash, i.e. every ampersand in the string starts a numeric
character reference rather than standing raw. -/
def ampRefOk : List Char → Bool
  | [] => true
  | c :: rest =>
    ((c != '&') || (match rest with | d :: _ => d == '#' | [] => false)) &&
      ampRefOk rest

/-- Sample incident with well-formed coordinates. -/
def incidentA : Incident :=
  { id := "1", alert_type := "roadworks", title := "Resurfacing",
    description := "Lane closed", lat := "33", long := "151" }

/-- Second sample incident, outside the sample viewport. -/
def incidentB : Incident :=
  { id := "2", alert_type := "emergency", title := "Crash",
    description := "Two cars", lat := "34", long := "152" }

/-- Sample incident whose latitude string does not parse as a number. -/
def incidentBad : Incident :=
  { id := "3", alert_type := "alert", title := "Ghost",
    description := "Bad coords", lat := "abc", long := "151" }

/-- Sample viewport containing `incidentA` but not `incidentB`. -/
def boundsEx : LatLngBounds :=
  { south := 32, west := 150, north := 33, east := 151 }

/-- Sample established map state. -/
def mapEx : MapState :=
  { bounds := some boundsEx, zoom := 10, center := (none, none) }

/-- Sample map state whose `getBounds()` still returns `undefined`. -/
def mapNoBounds : MapState :=
  { bounds := none, zoom := 10, center := (none, none) }

/-- Sample app state with `incidentA` selected. -/
def stateSelectedA : AppState :=
  { map := some mapEx, visibleIncidents := [incidentA, incidentB],
    selectedIncident := some incidentA, isIncidentListVisible := false,
    infoWindowContent := "", infoWindowAnchor := none }

/-- Sample app state with the list drawer open and nothing selected. -/
def stateDrawerOpen : AppState :=
  { stateSelectedA with selectedIncident := none, isIncidentListVisible := true }

/-- C1 (amended part): in the App.jsx variants, every `handleMarkerClick`
— from any prior state, including a click on the already-selected
incident — synchronously exposes the cleared selection (`flushSync`)
before exposing `Selected(incident)`, so the renderer always observes
the two-phase Unselected-then-Selected cycle and never a direct
Selected-to-Selected transition. -/
theorem handleMarkerClick_clear_then_set (s : AppState) (incident : Incident) :
    (handleMarkerClick s incident).2 = [none, some incident] ∧
    (handleMarkerClick s incident).1.selectedIncident = some incident :=
  ⟨rfl, rfl⟩

/-- C1 (counterexample): in the part_001 variant, clicking `incidentB`'s
marker while `incidentA` is selected exposes only `Selected(incidentB)`
to the renderer — no intermediate Unselected phase — so the claim that
every markerClicked transition first passes through Unselected is false
for this variant. -/
theorem handleMarkerClickP1_direct_transition :
    stateSelectedA.selectedIncident = some incidentA ∧
    (handleMarkerClickP1 stateSelectedA incidentB).2 = [some incidentB] ∧
    Option.none ∉ (handleMarkerClickP1 stateSelectedA incidentB).2 ∧
    (handleMarkerClickP1 stateSelectedA incidentB).1.selectedIncident = some incidentB := by
  refine ⟨rfl, rfl, ?_, rfl⟩
  decide

/-- C2: for an established viewport, an incident of the store is in the
recomputed visible list exactly when the collaborator's contained-point
predicate holds on its parsed coordinates. -/
theorem updateList_mem_iff_contains (m : MapState) (b : LatLngBounds)
    (incidents prev : List Incident) (incident : Incident)
    (hb : m.bounds = some b) (hmem : incident ∈ incidents) :
    incident ∈ updateList (some m) incidents prev ↔
      b.containsPoint (parseFloat incident.lat) (parseFloat incident.long) = true := by
  simp only [updateList, hb, computeVisible, List.mem_filter, incidentContained]
  exact ⟨fun h => h.2, fun h => ⟨hmem, h⟩⟩

/-- Witness for C2 at a concrete store and viewport. -/
theorem updateList_mem_iff_contains_witness :
    incidentA ∈ updateList (some mapEx) [incidentA, incidentB] [] ↔
      boundsEx.containsPoint (parseFloat incidentA.lat) (parseFloat incidentA.long) = true :=
  updateList_mem_iff_contains mapEx boundsEx [incidentA, incidentB] [] incidentA rfl
    (by decide)

/-- C3: for every established viewport the recomputed visible list is a
subsequence of the incident store — the filter preserves the store's
relative order. -/
theorem updateList_sublist (m : MapState) (b : LatLngBounds)
    (incidents prev : List Incident) (hb : m.bounds = some b) :
    List.Sublist (updateList (some m) incidents prev) incidents := by
  simp only [updateList, hb, computeVisible]
  exact List.filter_sublist incidents

/-- Witness for C3 at a concrete store and viewport. -/
theorem updateList_sublist_witness :
    List.Sublist (updateList (some mapEx) [incidentA, incidentB] []) [incidentA, incidentB] :=
  updateList_sublist mapEx boundsEx [incidentA, incidentB] [] rfl

/-- C5 (amended part): the guarded `updateList` skips silently when the
map is not stored or reports no bounds, leaving the previous visible
list untouched; the unguarded variant is safe only in the missing-map
case. -/
theorem updateList_skips_without_viewport (m : MapState)
    (incidents prev : List Incident) (h : m.bounds = none) :
    updateList none incidents prev = prev ∧
    updateList (some m) incidents prev = prev ∧
    updateListNoGuard none incidents prev = Except.ok prev := by
  refine ⟨rfl, ?_, rfl⟩
  simp only [updateList, h]

/-- Witness for C5's amended theorem at a concrete state. -/
theorem updateList_skips_without_viewport_witness :
    updateList none [incidentA] [incidentB] = [incidentB] ∧
    updateList (some mapNoBounds) [incidentA] [incidentB] = [incidentB] ∧
    updateListNoGuard none [incidentA] [incidentB] = Except.ok [incidentB] :=
  updateList_skips_without_viewport mapNoBounds [incidentA] [incidentB] rfl

/-- C5 (counterexample): the unguarded `updateList` draft (App.jsx lines
396-408) dereferences the undefined bounds when a map is stored but its
viewport is not yet established: the recompute throws instead of
silently retaining the previous visible list. -/
theorem updateListNoGuard_crashes_without_bounds :
    updateListNoGuard (some mapNoBounds) [incidentA] [incidentB] =
      Except.error "TypeError: bounds is undefined" ∧
    updateListNoGuard (some mapNoBounds) [incidentA] [incidentB] ≠
      Except.ok [incidentB] := by
  refine ⟨rfl, ?_⟩
  intro h
  exact Except.noConfusion h

/-- C4 (counterexample): an incident whose latitude string does not
parse is not rejected at load time and is not excluded from all
geographic operations: `handleMapLoad` still creates a marker for it,
positioned at its NaN coordinates, and still feeds those coordinates to
the bounds-fitting extension. -/
theorem malformed_incident_not_rejected_at_load :
    parseFloat incidentBad.lat = none ∧
    createMarkers [incidentBad] = [{ lat := none, lng := some 151 }] ∧
    fitBoundsPoints [incidentBad] = [(none, some 151)] := by
  refine ⟨rfl, ?_, ?_⟩ <;> decide

/-- C4 (amended part): an incident with an unparseable latitude or
longitude never appears in a recomputed visible list, because the
contained-point predicate is false on a NaN coordinate. -/
theorem malformed_never_visible (m : MapState) (b : LatLngBounds)
    (incidents prev : List Incident) (incident : Incident)
    (hb : m.bounds = some b)
    (hbad : parseFloat incident.lat = none ∨ parseFloat incident.long = none) :
    incident ∉ updateList (some m) incidents prev := by
  simp only [updateList, hb, computeVisible]
  intro hmem
  have hcont := (List.mem_filter.mp hmem).2
  unfold incidentContained at hcont
  rcases hlat : parseFloat incident.lat with _ | la <;>
    rcases hlng : parseFloat incident.long with _ | lo <;>
      rw [hlat, hlng] at hcont
  · exact absurd hcont (by simp [LatLngBounds.containsPoint])
  · exact absurd hcont (by simp [LatLngBounds.containsPoint])
  · exact absurd hcont (by simp [LatLngBounds.containsPoint])
  · rcases hbad with h | h
    · exact Option.noConfusion (hlat.symm.trans h)
    · exact Option.noConfusion (hlng.symm.trans h)

/-- Witness for C4's amended theorem at a concrete malformed incident. -/
theorem malformed_never_visible_witness :
    incidentBad ∉ updateList (some mapEx) [incidentA, incidentBad] [] :=
  malformed_never_visible mapEx boundsEx [incidentA, incidentBad] [] incidentBad rfl
    (Or.inl (by decide))

/-- C6: clicking a list item with the map present selects the incident
(as markerClicked does), re-centers the map on the incident's parsed
coordinates, and raises the zoom to at least 14 — setting it to 14
exactly when the current zoom is below 14, and never decreasing it. -/
theorem handleIncidentListItemClick_spec (s : AppState) (m : MapState)
    (incident : Incident) (hm : s.map = some m) :
    ∃ s' m', handleIncidentListItemClick s incident = Except.ok s' ∧
      s'.selectedIncident = some incident ∧
      s'.map = some m' ∧
      m'.center = (parseFloat incident.lat, parseFloat incident.long) ∧
      (m.zoom < 14 → m'.zoom = 14) ∧
      (¬ m.zoom < 14 → m'.zoom = m.zoom) ∧
      m.zoom ≤ m'.zoom ∧ (14 : ℚ) ≤ m'.zoom := by
  simp only [handleIncidentListItemClick, hm]
  split <;> rename_i hz
  · exact ⟨_, _, rfl, rfl, rfl, rfl, fun _ => rfl, fun h => absurd hz h,
      le_of_lt hz, le_refl _⟩
  · exact ⟨_, _, rfl, rfl, rfl, rfl, fun h => absurd h hz, fun _ => rfl,
      le_refl _, not_lt.mp hz⟩

/-- Witness for C6 at a concrete state whose zoom 10 is below the
threshold. -/
theorem handleIncidentListItemClick_spec_witness :
    ∃ s' m', handleIncidentListItemClick stateDrawerOpen incidentA = Except.ok s' ∧
      s'.selectedIncident = some incidentA ∧
      s'.map = some m' ∧
      m'.center = (parseFloat incidentA.lat, parseFloat incidentA.long) ∧
      (mapEx.zoom < 14 → m'.zoom = 14) ∧
      (¬ mapEx.zoom < 14 → m'.zoom = mapEx.zoom) ∧
      mapEx.zoom ≤ m'.zoom ∧ (14 : ℚ) ≤ m'.zoom :=
  handleIncidentListItemClick_spec stateDrawerOpen mapEx incidentA rfl

/-- C7 (counterexample): a list-item click — a selection transition —
changes the drawer state: with the drawer open, part_001's
`handleIncidentListItemClick` closes it
(`setIsIncidentListVisible(false)`), so drawer state is not changed
only by the explicit toggle. -/
theorem listItemClick_closes_drawer :
    stateDrawerOpen.isIncidentListVisible = true ∧
    (handleIncidentListItemClick stateDrawerOpen incidentA).map
      AppState.isIncidentListVisible = Except.ok false := by
  exact ⟨rfl, rfl⟩

/-- C7 (amended part): marker clicks (both variants) and info-window
dismissal leave the drawer state unchanged, the explicit toggle flips
it, and a list-item click always closes it. -/
theorem drawer_state_transitions (s : AppState) (incident : Incident) :
    (handleMarkerClick s incident).1.isIncidentListVisible = s.isIncidentListVisible ∧
    (handleMarkerClickP1 s incident).1.isIncidentListVisible = s.isIncidentListVisible ∧
    (handleInfoWindowCloseClick s).isIncidentListVisible = s.isIncidentListVisible ∧
    (handleListToggleClick s).isIncidentListVisible = !s.isIncidentListVisible ∧
    (∀ s', handleIncidentListItemClick s incident = Except.ok s' →
      s'.isIncidentListVisible = false) := by
  refine ⟨rfl, rfl, rfl, rfl, ?_⟩
  intro s' h
  unfold handleIncidentListItemClick at h
  cases hsm : s.map with
  | none => rw [hsm] at h; exact Except.noConfusion h
  | some m =>
    rw [hsm] at h
    cases h
    rfl

/-- Witness for C7's amended theorem at a concrete state, discharging
the list-item-click hypothesis on a concrete run of the handler. -/
theorem drawer_state_transitions_witness :
    (handleMarkerClick stateDrawerOpen incidentA).1.isIncidentListVisible = true ∧
    (handleInfoWindowCloseClick stateDrawerOpen).isIncidentListVisible = true ∧
    (handleListToggleClick stateDrawerOpen).isIncidentListVisible = false ∧
    ((handleIncidentListItemClick stateDrawerOpen incidentA).map
      AppState.isIncidentListVisible = Except.ok false) := by
  have h := drawer_state_transitions stateDrawerOpen incidentA
  exact ⟨h.1, h.2.2.1, h.2.2.2.1, congrArg Except.ok (h.2.2.2.2 _ rfl)⟩

/-- C8: `formatAlertType` maps the irregular tag to "Tow Allocation",
maps every other tag — in particular the four regular tags of the
closed set — to itself with only its first letter capitalised, and the
irregular tag never falls through to the generic rule (which would have
produced a different string). -/
theorem formatAlertType_spec :
    formatAlertType "tow_allocation" = "Tow Allocation" ∧
    formatAlertType "roadworks" = "Roadworks" ∧
    formatAlertType "emergency" = "Emergency" ∧
    formatAlertType "event" = "Event" ∧
    formatAlertType "alert" = "Alert" ∧
    (∀ (a : String) (c : Char) (rest : List Char), a.data = c :: rest →
      a ≠ "tow_allocation" → formatAlertType a = String.mk (c.toUpper :: rest)) ∧
    jsCapitalizeFirst "tow_allocation" ≠ "Tow Allocation" := by
  refine ⟨by decide, by decide, by decide, by decide, by decide, ?_, by decide⟩
  intro a c rest hdata hne
  simp only [formatAlertType, if_neg hne, jsCapitalizeFirst, hdata]

/-- Witness for C8's generic-rule clause at the concrete tag
"roadworks". -/
theorem formatAlertType_spec_witness :
    formatAlertType "roadworks" = String.mk ('r'.toUpper :: "oadworks".data) :=
  formatAlertType_spec.2.2.2.2.2.1 "roadworks" 'r' "oadworks".data rfl (by decide)

/-- C9: the visible-count label uses the singular noun exactly when one
incident is visible, and the plural noun exactly otherwise. -/
theorem incidentCountLabel_spec (n : ℕ) :
    (incidentCountLabel n = toString n ++ " incident shown." ↔ n = 1) ∧
    (incidentCountLabel n = toString n ++ " incidents shown." ↔ n ≠ 1) := by
  by_cases h : n = 1
  · subst h
    exact ⟨iff_of_true (by decide) rfl, iff_of_false (by decide) (by simp)⟩
  · have hplural : incidentCountLabel n = toString n ++ " incidents shown." := by
      unfold incidentCountLabel pluralSuffix
      rw [if_neg h, String.append_assoc, String.append_assoc]
      exact congrArg (toString n ++ ·) (by decide)
    refine ⟨iff_of_false ?_ h, iff_of_true hplural h⟩
    intro heq
    have hdata := congrArg String.data (hplural.symm.trans heq)
    simp only [String.data_append] at hdata
    exact absurd (List.append_cancel_left hdata) (by decide)

/-- Digit characters produced for values below ten pass the allowed-set
test of the escape regex. -/
theorem escapeAllowed_digitChar (d : Nat) (hd : d < 10) :
    escapeAllowed (digitChar d) = true := by
  interval_cases d <;> decide

/-- Every character of the fuelled decimal expansion is an allowed
digit. -/
theorem natDigitsAux_allowed :
    ∀ fuel n : Nat, ∀ c ∈ natDigitsAux fuel n, escapeAllowed c = true := by
  intro fuel
  induction fuel with
  | zero => intro n c hc; simp [natDigitsAux] at hc
  | succ fuel ih =>
    intro n c hc
    simp only [natDigitsAux] at hc
    split at hc
    · rename_i hn
      rw [List.mem_singleton.mp hc]
      exact escapeAllowed_digitChar n hn
    · rcases List.mem_append.mp hc with h | h
      · exact ih _ c h
      · rw [List.mem_singleton.mp h]
        exact escapeAllowed_digitChar _ (Nat.mod_lt _ (by decide))

/-- Every character of the decimal expansion is an allowed digit. -/
theorem natDigits_allowed (n : Nat) : ∀ c ∈ natDigits n, escapeAllowed c = true :=
  natDigitsAux_allowed _ n

/-- A character passing the allowed-set test is none of the characters
the escape replacement introduces, and none of the markup-significant
characters. -/
theorem escapeAllowed_ne_special {c : Char} (h : escapeAllowed c = true) :
    c ≠ '&' ∧ c ≠ '#' ∧ c ≠ ';' ∧ c ≠ '<' ∧ c ≠ '>' ∧
      c ≠ Char.ofNat 34 ∧ c ≠ Char.ofNat 39 := by
  refine ⟨?_, ?_, ?_, ?_, ?_, ?_, ?_⟩ <;>
    · intro h'
      subst h'
      exact absurd h (by decide)

/-- Every character of a per-character escape image is either allowed
or one of the three reference-delimiter characters. -/
theorem escapeChar_chars {c d : Char} (hd : d ∈ escapeChar c) :
    escapeAllowed d = true ∨ d = '&' ∨ d = '#' ∨ d = ';' := by
  by_cases hall : escapeAllowed c = true
  · rw [escapeChar, if_pos hall] at hd
    rw [List.mem_singleton.mp hd]
    exact Or.inl hall
  · rw [escapeChar, if_neg hall] at hd
    simp only [List.mem_cons, List.mem_append, List.mem_singleton] at hd
    rcases hd with (rfl | rfl | h) | rfl | hnil
    · exact Or.inr (Or.inl rfl)
    · exact Or.inr (Or.inr (Or.inl rfl))
    · exact Or.inl (natDigits_allowed _ d h)
    · exact Or.inr (Or.inr (Or.inr rfl))
    · exact absurd hnil (List.not_mem_nil d)

/-- Prepending a non-ampersand character preserves the
ampersand-reference invariant. -/
theorem ampRefOk_cons {c : Char} {l : List Char} (hc : c ≠ '&')
    (hl : ampRefOk l = true) : ampRefOk (c :: l) = true := by
  simp only [ampRefOk, hl, Bool.and_true, Bool.or_eq_true, bne_iff_ne]
  exact Or.inl hc

/-- Prepending a run of non-ampersand characters preserves the
ampersand-reference invariant. -/
theorem ampRefOk_append {l r : List Char} (hl : ∀ c ∈ l, c ≠ '&')
    (hr : ampRefOk r = true) : ampRefOk (l ++ r) = true := by
  induction l with
  | nil => exact hr
  | cons c l ih =>
    exact ampRefOk_cons (hl c (List.mem_cons_self c l))
      (ih fun d hd => hl d (List.mem_cons_of_mem c hd))

/-- Prepending one per-character escape image preserves the
ampersand-reference invariant: an allowed character is not an
ampersand, and a numeric character reference opens with "&#" and
otherwise consists of digits and a semicolon. -/
theorem ampRefOk_escapeChar (c : Char) {r : List Char}
    (hr : ampRefOk r = true) : ampRefOk (escapeChar c ++ r) = true := by
  unfold escapeChar
  split
  · rename_i hall
    exact ampRefOk_cons (escapeAllowed_ne_special hall).1 hr
  · have hdigits : ampRefOk (natDigits c.toNat ++ (';' :: r)) = true :=
      ampRefOk_append
        (fun d hd => (escapeAllowed_ne_special (natDigits_allowed _ d hd)).1)
        (ampRefOk_cons (by decide) hr)
    have hshape :
        ('&' :: '#' :: natDigits c.toNat ++ [';']) ++ r =
          '&' :: '#' :: (natDigits c.toNat ++ (';' :: r)) := by
      simp
    rw [hshape]
    have h2 : ampRefOk ('#' :: (natDigits c.toNat ++ (';' :: r))) = true :=
      ampRefOk_cons (by decide) hdigits
    change ((('&' != '&') || (('#' : Char) == '#')) &&
      ampRefOk ('#' :: (natDigits c.toNat ++ (';' :: r)))) = true
    rw [h2]
    decide

/-- The whole escaped character list satisfies the ampersand-reference
invariant. -/
theorem ampRefOk_escapeList (l : List Char) :
    ampRefOk (l.flatMap escapeChar) = true := by
  induction l with
  | nil => rfl
  | cons c l ih =>
    rw [List.flatMap_cons]
    exact ampRefOk_escapeChar c ih

/-- C10: every character of the escaped output is free of raw markup —
no angle bracket and no quote character (34 is the double quote, 39 the
single quote) ever occurs — and every ampersand in the output is the
opening of a numeric character reference "&#...;" rather than a raw
ampersand, so the incident-derived fields injected into the
info-window HTML contain no markup-significant characters. -/
theorem escape_no_raw_markup (s : String) (c : Char) (hc : c ∈ (escape s).data) :
    (c ≠ '<' ∧ c ≠ '>' ∧ c ≠ Char.ofNat 34 ∧ c ≠ Char.ofNat 39) ∧
    ampRefOk (escape s).data = true := by
  constructor
  · have hc' : c ∈ s.data.flatMap escapeChar := hc
    obtain ⟨a, -, ha⟩ := List.mem_flatMap.mp hc'
    rcases escapeChar_chars ha with h | rfl | rfl | rfl
    · obtain ⟨-, -, -, h4, h5, h6, h7⟩ := escapeAllowed_ne_special h
      exact ⟨h4, h5, h6, h7⟩
    · exact ⟨by decide, by decide, by decide, by decide⟩
    · exact ⟨by decide, by decide, by decide, by decide⟩
    · exact ⟨by decide, by decide, by decide, by decide⟩
  · exact ampRefOk_escapeList s.data

/-- Witness for C10 on a concrete markup-laden input: the ampersand the
replacement itself introduces is covered, and the whole escaped output
of "<b>" satisfies the reference invariant. -/
theorem escape_no_raw_markup_witness :
    (('&' : Char) ≠ '<' ∧ ('&' : Char) ≠ '>' ∧ ('&' : Char) ≠ Char.ofNat 34 ∧
      ('&' : Char) ≠ Char.ofNat 39) ∧
    ampRefOk (escape "<b>").data = true :=
  escape_no_raw_markup "<b>" '&' (by decide)
